import Mathlib

/-!
Verification of the colyseus MatchMaker core (`src/MatchMaker.ts`) against its
natural-language specification.  The TypeScript functions are shallowly embedded
as Lean definitions; asynchronous calls whose outcome depends on the environment
(the presence backend, the driver, remote processes, the rooms themselves) are
passed in explicitly as parameters, so every definition is executable.
-/

namespace Colyseus

/-- JSON-like values carried in client options, query conditions and room
listing fields. -/
inductive JSVal where
  | null
  | bool (b : Bool)
  | num (n : Int)
  | str (s : String)
  deriving DecidableEq, Repr

/-- Serialization of a single value, as `JSON.stringify` renders it. -/
def JSVal.stringify : JSVal → String
  | .null => "null"
  | .bool true => "true"
  | .bool false => "false"
  | .num n => toString n
  | .str s => "\"" ++ s ++ "\""

/-- `JSON.stringify` of an argument array. -/
def jsonStringifyArgs (args : List JSVal) : String :=
  "[" ++ String.intercalate "," (args.map JSVal.stringify) ++ "]"

/-- Error codes from the `Protocol` enum that the matchmaker surfaces. -/
inductive ErrorCode where
  | ERR_MATCHMAKE_NO_HANDLER
  | ERR_MATCHMAKE_INVALID_CRITERIA
  | ERR_MATCHMAKE_INVALID_ROOM_ID
  | ERR_MATCHMAKE_EXPIRED
  | ERR_MATCHMAKE_UNHANDLED
  | ERR_MATCHMAKE_SEAT_RESERVATION
  deriving DecidableEq, Repr

/-- Errors thrown by the matchmaker: `MatchMakeError` (optionally carrying a
protocol code) and `SeatReservationError`. -/
inductive MMError where
  | matchMakeError (message : String) (code : Option ErrorCode)
  | seatReservationError (message : String)
  deriving DecidableEq, Repr

/-- True exactly for `SeatReservationError` instances (the `instanceof` test the
retry whitelist performs). -/
def isSeatReservationError : MMError → Bool
  | .seatReservationError _ => true
  | _ => false

/-- A driver-backed room listing: in JS this is an object with dynamic fields,
modelled as an association list from field name to value. -/
abbrev RoomListingData := List (String × JSVal)

/-- Field read on a listing (first binding wins, as in a JS object). -/
def RoomListingData.get (room : RoomListingData) (key : String) : Option JSVal :=
  room.lookup key

/-- The `roomId` field of a listing. -/
def RoomListingData.roomId (room : RoomListingData) : String :=
  match room.get "roomId" with
  | some (.str s) => s
  | _ => ""

/-- JS truthiness of the `locked` field of a listing. -/
def RoomListingData.locked (room : RoomListingData) : Bool :=
  match room.get "locked" with
  | some (.bool b) => b
  | _ => false

/-- Client options: a JS object, modelled as an association list. -/
abbrev ClientOptions := List (String × JSVal)

/-- A successful seat reservation, `{room, sessionId}`. -/
structure SeatReservation where
  room : RoomListingData
  sessionId : String
  deriving DecidableEq, Repr

/-! ## C6: `reserveSeatFor` (MatchMaker.ts lines 339-362) -/

/-- Embedding of `reserveSeatFor(room, options)`.  `sessionId` is the value of
`generateId()`, and `reserveSeatCall` is the outcome of
`remoteRoomCall(room.roomId, "_reserveSeat", [sessionId, options])`, both passed
in explicitly.  The `try/catch` turns any error from that call into
`successfulSeatReservation = false`. -/
def reserveSeatFor (room : RoomListingData) (sessionId : String)
    (reserveSeatCall : Except MMError Bool) : Except MMError SeatReservation :=
  let successfulSeatReservation : Bool :=
    match reserveSeatCall with
    | .ok ok => ok
    | .error _ => false
  if !successfulSeatReservation then
    .error (.seatReservationError (room.roomId ++ " is already full."))
  else
    .ok { room := room, sessionId := sessionId }

/-! ## C10: `remoteRoomCall`, remote branch (MatchMaker.ts lines 160-185) -/

/-- How an IPC request can fail: an actual timeout, or any other
infrastructure error. -/
inductive IPCFailure where
  | timeout
  | infrastructure (message : String)
  deriving DecidableEq, Repr

/-- The `request` string interpolated into the timeout message:
`method` followed by `" with args " + JSON.stringify(args)` when `args` was
passed (`args &&  ... || void`). -/
def requestDescription (method : String) (args : Option (List JSVal)) : String :=
  method ++
    (match args with
     | some a => " with args " ++ jsonStringifyArgs a
     | none => "")

/-- The message of the `MatchMakeError` raised when the IPC request fails. -/
def remoteRoomTimeoutMessage (roomId method : String) (args : Option (List JSVal))
    (rejectionTimeout : Nat) : String :=
  "remote room (" ++ roomId ++ ") timed out, requesting \"" ++
    requestDescription method args ++ "\". (" ++ toString rejectionTimeout ++
    "ms exceeded)"

/-- Embedding of the `!room` branch of `remoteRoomCall(roomId, method, args,
rejectionTimeout)`: the room is not in the local table, so the call goes through
`requestFromIPC` on the channel of `roomId`; `ipcResult` is that calls outcome.
Every failure is caught and re-raised as a `MatchMakeError` with code
`ERR_MATCHMAKE_UNHANDLED` and a timed-out message. -/
def remoteRoomCallRemote (roomId method : String) (args : Option (List JSVal))
    (rejectionTimeout : Nat) (ipcResult : Except IPCFailure JSVal) :
    Except MMError JSVal :=
  match ipcResult with
  | .ok value => .ok value
  | .error _ =>
    .error (.matchMakeError
      (remoteRoomTimeoutMessage roomId method args rejectionTimeout)
      (some .ERR_MATCHMAKE_UNHANDLED))

/-! ## C2: `joinOrCreate` (MatchMaker.ts lines 55-65) and the retry loop -/

/-- Modelled from the spec: `retry` from `Utils.ts` is not under `src/`.  Per the
spec, `joinOrCreate` "runs under a retry loop up to 5 attempts, retrying only on
`SeatReservationError`".  `cb k` is the outcome of attempt number `k` (0-based)
and `remaining` counts how many further attempts are still allowed; the whole
call starts with `remaining = maxAttempts - 1`. -/
def retry {α : Type} (cb : Nat → Except MMError α) (isRetryable : MMError → Bool)
    (k : Nat) : Nat → Except MMError α
  | 0 => cb k
  | remaining + 1 =>
    match cb k with
    | .ok value => .ok value
    | .error e =>
      if isRetryable e then retry cb isRetryable (k + 1) remaining else .error e

/-- Environment of one `joinOrCreate` run: the outcomes of
`findOneRoomAvailable`, `createRoom` and `reserveSeatFor` as they would be
observed on attempt `k`. -/
structure JoinOrCreateEnv where
  findOneRoomAvailable : Nat → Except MMError (Option RoomListingData)
  createRoom : Nat → Except MMError RoomListingData
  reserveSeatFor : Nat → RoomListingData → Except MMError SeatReservation

/-- One attempt of `joinOrCreate(roomName, options)`: `findOneRoomAvailable`;
if that yields no room, `createRoom`; then `reserveSeatFor` on the room. -/
def joinOrCreateAttempt (env : JoinOrCreateEnv) (k : Nat) :
    Except MMError SeatReservation :=
  match env.findOneRoomAvailable k with
  | .error e => .error e
  | .ok roomOpt =>
    let roomResult : Except MMError RoomListingData :=
      match roomOpt with
      | some room => .ok room
      | none => env.createRoom k
    match roomResult with
    | .error e => .error e
    | .ok room => env.reserveSeatFor k room

/-- Embedding of `joinOrCreate`: the attempt under
`retry(…, 5, [SeatReservationError])`, i.e. at most 5 attempts. -/
def joinOrCreate (env : JoinOrCreateEnv) : Except MMError SeatReservation :=
  retry (joinOrCreateAttempt env) isSeatReservationError 0 4

/-! ## C4: `joinById` (MatchMaker.ts lines 93-123) -/

/-- The `options.sessionId` read in `joinById`, together with the JS truthiness
test `if (rejoinSessionId)`: an absent field or an empty string is falsy. -/
def rejoinSessionIdOf (options : ClientOptions) : Option String :=
  match options.lookup "sessionId" with
  | some (.str s) => if s = "" then none else some s
  | _ => none

/-- Environment of one `joinById` call: the driver lookup, the
`hasReservedSeat` remote room call, the `_reserveSeat` remote room call used by
`reserveSeatFor`, and the session id `generateId()` would produce. -/
structure JoinByIdEnv where
  findOne : String → Option RoomListingData
  hasReservedSeat : String → Except MMError Bool
  reserveSeatOutcome : RoomListingData → Except MMError Bool
  freshSessionId : String

/-- Embedding of `joinById(roomId, options)`.  The second component records
whether `reserveSeatFor` was invoked (no new reservation is made on the
reconnection path). -/
def joinById (roomId : String) (options : ClientOptions) (env : JoinByIdEnv) :
    Except MMError SeatReservation × Bool :=
  match env.findOne roomId with
  | none =>
    (.error (.matchMakeError ("room \"" ++ roomId ++ "\" not found")
      (some .ERR_MATCHMAKE_INVALID_ROOM_ID)), false)
  | some room =>
    match rejoinSessionIdOf options with
    | some rejoinSessionId =>
      -- handle re-connection!
      (match env.hasReservedSeat rejoinSessionId with
       | .ok true => (.ok { room := room, sessionId := rejoinSessionId }, false)
       | .ok false =>
         (.error (.matchMakeError "session expired" (some .ERR_MATCHMAKE_EXPIRED)),
          false)
       | .error e => (.error e, false))
    | none =>
      if !room.locked then
        (reserveSeatFor room env.freshSessionId (env.reserveSeatOutcome room), true)
      else
        (.error (.matchMakeError ("room \"" ++ roomId ++ "\" is locked")
          (some .ERR_MATCHMAKE_INVALID_ROOM_ID)), false)

/-! ## C5: `awaitRoomAvailable` (MatchMaker.ts lines 412-440) -/

/-- The body scheduled by `setTimeout`: run the callback, resolving on success
and rejecting on error, and in both cases (`finally`) run
`presence.decr(concurrencyKey)` on the counter. -/
def runGateBody {α : Type} (callback : Except MMError α) (counter : Nat) :
    Except MMError α × Nat :=
  match callback with
  | .ok result => (.ok result, counter - 1)
  | .error e => (.error e, counter - 1)

/-- Embedding of `awaitRoomAvailable(roomToJoin, callback)` with the concurrency
counter `c:<roomToJoin>` as explicit state.  `remoteRoomShortTimeout` stands for
the `REMOTE_ROOM_SHORT_TIMEOUT` constant (defined in `Utils.ts`, outside
`src/`), kept as a parameter.  Returns the callback outcome, the delay in
milliseconds the `setTimeout` waits before running the callback, and the counter
value after the call completes. -/
def awaitRoomAvailable {α : Type} (remoteRoomShortTimeout : Nat)
    (callback : Except MMError α) (counter : Nat) :
    Except MMError α × Nat × Nat :=
  let counterAfterIncr := counter + 1
  let concurrency := counterAfterIncr - 1
  let concurrencyTimeout := min (concurrency * 100) remoteRoomShortTimeout
  let bodyResult := runGateBody callback counterAfterIncr
  (bodyResult.1, concurrencyTimeout, bodyResult.2)

/-- Counter value after a sequence of gate calls run back to back. -/
def runJoiners {α : Type} (remoteRoomShortTimeout : Nat)
    (callbacks : List (Except MMError α)) (counter : Nat) : Nat :=
  callbacks.foldl
    (fun c callback => (awaitRoomAvailable remoteRoomShortTimeout callback c).2.2)
    counter

/-- Decidable equality of `Except` results, used to evaluate the embeddings on
concrete inputs. -/
instance exceptDecidableEq {ε α : Type} [DecidableEq ε] [DecidableEq α] :
    DecidableEq (Except ε α)
  | .ok a, .ok b =>
    if h : a = b then .isTrue (by rw [h])
    else .isFalse (fun hh => h (Except.ok.inj hh))
  | .ok _, .error _ => .isFalse (fun hh => Except.noConfusion hh)
  | .error _, .ok _ => .isFalse (fun hh => Except.noConfusion hh)
  | .error e, .error f =>
    if h : e = f then .isTrue (by rw [h])
    else .isFalse (fun hh => h (Except.error.inj hh))

/-- Presence channels used by the matchmaker: the per-room inbox (the channel
string of a room id) and the per-process inbox (`p:` followed by the process
id).  The two formats never collide, so they are modelled as a tagged type. -/
inductive Channel where
  | room (roomId : String)
  | process (processId : String)
  deriving DecidableEq, Repr

/-- `getRoomChannel(roomId)`. -/
def getRoomChannel (roomId : String) : Channel := .room roomId

/-- `getProcessChannel(id)`. -/
def getProcessChannel (processId : String) : Channel := .process processId

/-- `getHandlerConcurrencyKey(name)`: the key `c:` followed by the name. -/
def getHandlerConcurrencyKey (name : String) : String := "c:" ++ name

/-! ## C3: `createRoom` (MatchMaker.ts lines 209-245) -/

/-- The count a process id maps to in the `roomcount` hash,
`Number(roomsSpawnedByProcessId[p])`. -/
def countOf (counts : List (String × Int)) (p : String) : Int :=
  (counts.lookup p).getD 0

/-- The comparator passed to `sort` in `createRoom` (MatchMaker.ts lines
213-217): returns `1` when `Number(counts[p1]) > Number(counts[p2])` and `-1`
otherwise.  It never returns `0`: on tied counts it reports both orders as
smaller, so it is not a consistent comparison function and ECMAScript leaves
the resulting order of tied keys implementation-defined. -/
def createRoomComparator (counts : List (String × Int)) (p1 p2 : String) : Int :=
  if countOf counts p1 > countOf counts p2 then 1 else -1

/-- Whether no adjacent pair of the list is ordered the other way by the
`createRoom` comparator. -/
def comparatorAccepts (counts : List (String × Int)) : List String → Bool
  | [] => true
  | [_] => true
  | p1 :: p2 :: rest =>
    decide (createRoomComparator counts p1 p2 ≤ 0) &&
      comparatorAccepts counts (p2 :: rest)

/-- The contract every real engine satisfies when sorting with the `createRoom`
comparator: the output is a permutation of the keys with no adjacent pair the
comparator orders the other way (equivalently, ascending in the count).  Since
the comparator never returns `0`, this pins down nothing about the relative
order of tied keys: engines differ (the V8 TimSort of Node 11 and later
detects a tied prefix as a descending run and reverses it, placing the last
tied key first). -/
def IsComparatorSortResult (counts : List (String × Int)) (sorted : List String) :
    Prop :=
  sorted.isPerm (counts.map Prod.fst) = true ∧
  comparatorAccepts counts sorted = true

instance (counts : List (String × Int)) (sorted : List String) :
    Decidable (IsComparatorSortResult counts sorted) :=
  inferInstanceAs (Decidable (sorted.isPerm (counts.map Prod.fst) = true ∧
    comparatorAccepts counts sorted = true))

/-- `Object.keys(roomsSpawnedByProcessId).sort(...)` followed by
`[0] || processId` (MatchMaker.ts lines 212-218).  The sort output is an
implementation-defined choice left to the engine (the comparator never returns
`0`), so it is passed in as `sorted`, constrained by
`IsComparatorSortResult` in the theorems; an empty key list makes `[0]`
undefined, falling back to the calling process. -/
def processIdWithFewerRooms (_counts : List (String × Int)) (processId : String)
    (sorted : List String) : String :=
  (sorted.head?).getD processId

/-- Specification-side definition, following the spec words: the argmin over
process ids of the count, with stable tiebreak — the first list element
attaining the minimum.  Kept for comparison with the embedding: the claimed
stable tiebreak is what this function computes. -/
def stableArgminBy {α : Type} (f : α → Int) : List α → Option α
  | [] => none
  | x :: xs =>
    match stableArgminBy f xs with
    | none => some x
    | some m => if f x ≤ f m then some x else some m

/-- Specification-side definition, following the spec words: "pick
`target = argmin over processId of count` (stable tiebreak by sort order of
process ids)". -/
def stableMinProcessId (counts : List (String × Int)) : Option String :=
  stableArgminBy (countOf counts) (counts.map Prod.fst)

/-- Environment of one `createRoom` call: the outcome of the IPC create request
to a given process, and the outcome of a local `handleCreateRoom`. -/
structure CreateRoomEnv where
  ipcCreate : String → Except MMError RoomListingData
  handleCreateRoom : Except MMError RoomListingData

/-- Observable behavior of one `createRoom` call: its result, the process
channel an IPC create request was published on (if any), and whether the room
was created by the local `handleCreateRoom`. -/
structure CreateRoomTrace where
  result : Except MMError RoomListingData
  ipcRequestChannel : Option Channel
  createdLocally : Bool
  deriving DecidableEq, Repr

/-- Embedding of `createRoom(roomName, clientOptions)`: pick the process with
fewer rooms (the engine-chosen sorted key list is passed in as `sorted`);
create locally when it is this process, otherwise request creation over IPC on
its process channel and fall back to local creation on any failure of that
request. -/
def createRoom (counts : List (String × Int)) (processId : String)
    (sorted : List String) (env : CreateRoomEnv) : CreateRoomTrace :=
  let target := processIdWithFewerRooms counts processId sorted
  if target = processId then
    -- create the room on this process!
    { result := env.handleCreateRoom, ipcRequestChannel := none,
      createdLocally := true }
  else
    -- ask other process to create the room!
    match env.ipcCreate target with
    | .ok room =>
      { result := .ok room, ipcRequestChannel := some (getProcessChannel target),
        createdLocally := false }
    | .error _ =>
      -- if other process failed to respond, create the room on this process
      { result := env.handleCreateRoom,
        ipcRequestChannel := some (getProcessChannel target),
        createdLocally := true }

/-! ## C8: `findOneRoomAvailable` (MatchMaker.ts lines 135-155) -/

/-- A registered room handler; only the `filterBy` key list matters here. -/
structure RegisteredHandler where
  filterBy : List String
  deriving DecidableEq, Repr

/-- Modelled from the spec: `RegisteredHandler.getFilterOptions` (defined in
`matchmaker/RegisteredHandler.ts`, which is not under `src/`): the "filter
fields projected from create options" — each declared `filterBy` key present in
the client options, with its value. -/
def RegisteredHandler.getFilterOptions (handler : RegisteredHandler)
    (options : ClientOptions) : List (String × JSVal) :=
  handler.filterBy.filterMap
    (fun key => (options.lookup key).map (fun v => (key, v)))

/-- The JS object literal `{locked: false, name: roomName, private: false,
...extra}`: keys of the spread `extra` override the base keys. -/
def mergeConditions (base extra : List (String × JSVal)) : List (String × JSVal) :=
  base.filter (fun c => (extra.lookup c.1).isNone) ++ extra

/-- Whether a cached listing matches every queried condition field. -/
def matchesConditions (room : RoomListingData)
    (conditions : List (String × JSVal)) : Bool :=
  conditions.all (fun c => decide (room.lookup c.1 = some c.2))

/-- Modelled from the spec: the driver `findOne` (the drivers are not under
`src/`): the first cached listing matching all conditions. -/
def driverFindOne (listings : List RoomListingData)
    (conditions : List (String × JSVal)) : Option RoomListingData :=
  listings.find? (fun room => matchesConditions room conditions)

/-- The conditions `findOneRoomAvailable` queries the driver with
(MatchMaker.ts lines 142-147). -/
def findOneConditions (roomName : String) (handler : RegisteredHandler)
    (options : ClientOptions) : List (String × JSVal) :=
  mergeConditions
    [("locked", .bool false), ("name", .str roomName), ("private", .bool false)]
    (handler.getFilterOptions options)

/-- Embedding of the callback `findOneRoomAvailable(roomName, options)` runs
through the concurrency gate (the gate itself is `awaitRoomAvailable`): require
a registered handler, then query the driver.  The optional `handler.sortOptions`
post-ordering is not modelled; it only permutes which matching listing is
first. -/
def findOneRoomAvailable (handlers : List (String × RegisteredHandler))
    (listings : List RoomListingData) (roomName : String)
    (options : ClientOptions) : Except MMError (Option RoomListingData) :=
  match handlers.lookup roomName with
  | none =>
    .error (.matchMakeError ("\"" ++ roomName ++ "\" not defined")
      (some .ERR_MATCHMAKE_NO_HANDLER))
  | some handler =>
    .ok (driverFindOne listings (findOneConditions roomName handler options))

/-! ## C1, C7, C9: process state, room lifecycle and shutdown -/

/-- A local room owned by this process, as the matchmaker tracks it. -/
structure RoomRef where
  roomId : String
  roomName : String
  deriving DecidableEq, Repr

/-- The per-process matchmaker state touched by room lifecycle handling: the
registered handler names, the local room table `rooms`, the presence channels
with an active subscription, the plain presence keys currently set, the
`roomcount` hash, the saved listings (as room ids) and the shutdown flag. -/
structure MMState where
  handlers : List String
  rooms : List RoomRef
  subscriptions : List Channel
  presenceKeys : List String
  roomCount : List (String × Int)
  listings : List String
  isGracefullyShuttingDown : Bool
  deriving DecidableEq, Repr

/-- `subscribeIPC(presence, processId, channel, callback)`: install a
subscription on the channel. -/
def MMState.subscribeIPC (s : MMState) (channel : Channel) : MMState :=
  { s with subscriptions := channel :: s.subscriptions }

/-- `presence.unsubscribe(channel)`: drop the subscription. -/
def MMState.unsubscribe (s : MMState) (channel : Channel) : MMState :=
  { s with subscriptions := s.subscriptions.filter (fun c => c != channel) }

/-- `presence.del(key)` on a plain presence key. -/
def MMState.presenceDel (s : MMState) (key : String) : MMState :=
  { s with presenceKeys := s.presenceKeys.filter (fun k => k != key) }

/-- `presence.hincrby("roomcount", processId, amount)`: add to the hash field,
treating a missing field as 0. -/
def MMState.hincrbyRoomCount (s : MMState) (processId : String) (amount : Int) :
    MMState :=
  { s with roomCount :=
      (processId, ((s.roomCount.lookup processId).getD 0) + amount) ::
        s.roomCount.filter (fun p => p.1 != processId) }

/-- `presence.hdel("roomcount", processId)`. -/
def MMState.hdelRoomCount (s : MMState) (processId : String) : MMState :=
  { s with roomCount := s.roomCount.filter (fun p => p.1 != processId) }

/-- The count stored for a process in the `roomcount` hash (0 when absent). -/
def MMState.roomCountOf (s : MMState) (processId : String) : Int :=
  (s.roomCount.lookup processId).getD 0

/-- `createRoomReferences(room, init)` (MatchMaker.ts lines 388-405): place the
room in the local table and, only when `init` is true, `subscribeIPC` on the
per-room channel. -/
def createRoomReferences (s : MMState) (room : RoomRef) (init : Bool) : MMState :=
  let s1 := { s with
    rooms := room :: s.rooms.filter (fun r => r.roomId != room.roomId) }
  if init then s1.subscribeIPC (getRoomChannel room.roomId) else s1

/-- `clearRoomReferences(room)` (MatchMaker.ts lines 407-410): clear the list
of connecting clients — a `presence.del` of the plain key `room.roomId`.  It
does not touch the channel subscriptions. -/
def clearRoomReferences (s : MMState) (room : RoomRef) : MMState :=
  s.presenceDel room.roomId

/-- The `lock` event handler `lockRoom(roomName, room)` (MatchMaker.ts lines
466-471): `clearRoomReferences`, then emit the public `lock` event on the
registered handler (no state effect). -/
def lockRoom (s : MMState) (room : RoomRef) : MMState :=
  clearRoomReferences s room

/-- The `unlock` event handler `unlockRoom(roomName, room)`:
`createRoomReferences(room)` with the default `init = false`, then emit the
public `unlock` event. -/
def unlockRoom (s : MMState) (room : RoomRef) : MMState :=
  createRoomReferences s room false

/-- The `dispose` event handler `disposeRoom(roomName, room)` (MatchMaker.ts
lines 481-506). -/
def disposeRoom (s : MMState) (processId : String) (room : RoomRef) : MMState :=
  -- decrease amount of rooms this process is handling
  let s1 := if !s.isGracefullyShuttingDown
    then s.hincrbyRoomCount processId (-1) else s
  -- room.listing.remove(); emit disposal on the registered handler
  let s2 := { s1 with listings := s1.listings.filter (fun r => r != room.roomId) }
  -- remove concurrency key
  let s3 := s2.presenceDel (getHandlerConcurrencyKey room.roomName)
  -- remove from available rooms
  let s4 := clearRoomReferences s3 room
  -- unsubscribe from remote connections
  let s5 := s4.unsubscribe (getRoomChannel room.roomId)
  -- remove actual room reference
  { s5 with rooms := s5.rooms.filter (fun r => r.roomId != room.roomId) }

/-- Inputs of one `handleCreateRoom(roomName, clientOptions)` call: the fresh
`generateId()` value and how the room class behaves — whether it defines
`onCreate` and, if so, whether that call throws (with which message). -/
structure CreateAttempt where
  roomName : String
  roomId : String
  hasOnCreate : Bool
  onCreateError : Option String
  deriving DecidableEq, Repr

/-- Embedding of `handleCreateRoom` (MatchMaker.ts lines 247-303), returning
the call outcome together with the state after the call.  The room count is
incremented only inside the branch where the room defines `onCreate` and that
call succeeds; the table entry, the per-room subscription and the saved listing
are produced afterwards.  On failure the state is unchanged. -/
def handleCreateRoom (s : MMState) (processId : String) (a : CreateAttempt) :
    Except MMError RoomRef × MMState :=
  if !(s.handlers.contains a.roomName) then
    (.error (.matchMakeError ("\"" ++ a.roomName ++ "\" not defined")
      (some .ERR_MATCHMAKE_NO_HANDLER)), s)
  else
    -- room public attributes assigned; room.listing := driver.createInstance
    -- (allocated but not yet saved)
    let room : RoomRef := { roomId := a.roomId, roomName := a.roomName }
    match a.hasOnCreate, a.onCreateError with
    | true, some message =>
      -- onCreate threw: debugAndPrintError(e); throw MatchMakeError(e.message)
      (.error (.matchMakeError message none), s)
    | hasOnCreate, _ =>
      -- increment amount of rooms this process is handling (only after a
      -- successful onCreate)
      let s1 := if hasOnCreate then s.hincrbyRoomCount processId 1 else s
      -- internal state CREATED; listing roomId and maxClients copied; event
      -- listeners bound (lock, unlock, join, leave, dispose, disconnect)
      let s2 := createRoomReferences s1 room true  -- room always start unlocked
      let s3 := { s2 with listings := a.roomId :: s2.listings }  -- listing.save()
      (.ok room, s3)

/-- How the first or second `gracefullyShutdown` call can fail: the second call
rejects with the literal value `false` (not an Error object); the first call
rejects when `Promise.all` over the disconnect futures rejects. -/
inductive ShutdownRejection where
  | rejectedWithFalse
  | disconnectFailure (message : String)
  deriving DecidableEq, Repr

/-- `Promise.all` over already-started futures with synchronously known
outcomes: succeeds with all values if every future succeeds, otherwise rejects
with the first failure in start order. -/
def promiseAll {ε α : Type} : List (Except ε α) → Except ε (List α)
  | [] => .ok []
  | r :: rs =>
    match r with
    | .error e => .error e
    | .ok a =>
      match promiseAll rs with
      | .error e => .error e
      | .ok values => .ok (a :: values)

/-- Observable behavior of one `gracefullyShutdown()` call: the state after the
synchronous part, the rooms whose `disconnect()` was invoked, and the settled
outcome of the returned future. -/
structure ShutdownResult where
  state : MMState
  disconnectedRooms : List String
  outcome : Except ShutdownRejection Unit
  deriving DecidableEq, Repr

/-- Embedding of `gracefullyShutdown()` (MatchMaker.ts lines 309-334).
`disconnectOutcome` gives the result of each local room disconnect future.  A
repeated call short-circuits with `Promise.reject(false)`; otherwise the
process room-count entry is deleted, the process channel unsubscribed, every
local room `disconnect()` invoked, and the returned future is `Promise.all`
over the disconnect futures. -/
def gracefullyShutdown (s : MMState) (processId : String)
    (disconnectOutcome : String → Except String Unit) : ShutdownResult :=
  if s.isGracefullyShuttingDown then
    { state := s, disconnectedRooms := [], outcome := .error .rejectedWithFalse }
  else
    let s1 := { s with isGracefullyShuttingDown := true }
    -- remove processId from room count key
    let s2 := s1.hdelRoomCount processId
    -- unsubscribe from process id channel
    let s3 := s2.unsubscribe (getProcessChannel processId)
    { state := s3
      disconnectedRooms := s3.rooms.map (fun r => r.roomId)
      outcome :=
        match promiseAll (s3.rooms.map (fun r => disconnectOutcome r.roomId)) with
        | .ok _ => .ok ()
        | .error e => .error (.disconnectFailure e) }

/-- Embedding of `setup(presence, driver, processId)` followed by
`defineRoomType` for each handler name: the fresh-process state, subscribed to
the process inbox and registered with count 0. -/
def setup (processId : String) (handlers : List String) : MMState :=
  { handlers := handlers
    rooms := []
    subscriptions := [getProcessChannel processId]
    presenceKeys := []
    roomCount := [(processId, 0)]
    listings := []
    isGracefullyShuttingDown := false }

/-- Room lifecycle events the matchmaker reacts to, as a step relation: a
successful local room creation, the `lock`, `unlock` and `dispose` events
emitted by a room this process owns, and `gracefullyShutdown`.  Per the spec
lifecycle a room emits events only between creation and disposal, so the event
steps require the room to be in the local table; creation uses a fresh
`generateId()` id. -/
inductive Step (processId : String) : MMState → MMState → Prop where
  | create (s : MMState) (a : CreateAttempt) (room : RoomRef) (s2 : MMState)
      (fresh : ∀ r ∈ s.rooms, r.roomId ≠ a.roomId)
      (ok : handleCreateRoom s processId a = (.ok room, s2)) :
      Step processId s s2
  | lock (s : MMState) (room : RoomRef) (mem : room ∈ s.rooms) :
      Step processId s (lockRoom s room)
  | unlock (s : MMState) (room : RoomRef) (mem : room ∈ s.rooms) :
      Step processId s (unlockRoom s room)
  | dispose (s : MMState) (room : RoomRef) (mem : room ∈ s.rooms) :
      Step processId s (disposeRoom s processId room)
  | shutdown (s : MMState) (disconnectOutcome : String → Except String Unit) :
      Step processId s (gracefullyShutdown s processId disconnectOutcome).state

/-- States reachable from the fresh-process state. -/
def Reachable (processId : String) (handlers : List String) (s : MMState) : Prop :=
  Relation.ReflTransGen (Step processId) (setup processId handlers) s

/-- C6: for every listing and options, `reserveSeatFor` returns
`{room, sessionId}` exactly when the `_reserveSeat` remote call returned `true`;
a `false` result or any error from the call yields a `SeatReservationError`
whose message is the room id followed by ` is already full.`. -/
theorem reserveSeatFor_spec (room : RoomListingData) (sessionId : String) :
    reserveSeatFor room sessionId (.ok true) =
      .ok { room := room, sessionId := sessionId } ∧
    reserveSeatFor room sessionId (.ok false) =
      .error (.seatReservationError (room.roomId ++ " is already full.")) ∧
    ∀ e : MMError, reserveSeatFor room sessionId (.error e) =
      .error (.seatReservationError (room.roomId ++ " is already full.")) := by
  refine ⟨rfl, rfl, fun e => rfl⟩

/-- C10: in the remote branch of `remoteRoomCall`, every failure of the
underlying IPC request — a timeout or any infrastructure error — is re-raised as
the same `MatchMakeError` with code `ERR_MATCHMAKE_UNHANDLED` and a message that
claims a timeout, naming the method, the JSON-serialized args when present, and
the timeout in milliseconds; hence the caller cannot distinguish the two failure
kinds. -/
theorem remoteRoomCallRemote_failure_spec (roomId method : String)
    (args : Option (List JSVal)) (rejectionTimeout : Nat) :
    (∀ e : IPCFailure,
      remoteRoomCallRemote roomId method args rejectionTimeout (.error e) =
        .error (.matchMakeError
          (remoteRoomTimeoutMessage roomId method args rejectionTimeout)
          (some .ERR_MATCHMAKE_UNHANDLED))) ∧
    (∀ e₁ e₂ : IPCFailure,
      remoteRoomCallRemote roomId method args rejectionTimeout (.error e₁) =
        remoteRoomCallRemote roomId method args rejectionTimeout (.error e₂)) ∧
    (∀ a : List JSVal, requestDescription method (some a) =
      method ++ " with args " ++ jsonStringifyArgs a) ∧
    requestDescription method none = method ∧
    remoteRoomTimeoutMessage roomId method args rejectionTimeout =
      "remote room (" ++ roomId ++ ") timed out, requesting \"" ++
        requestDescription method args ++ "\". (" ++ toString rejectionTimeout ++
        "ms exceeded)" := by
  refine ⟨fun e => rfl, fun e₁ e₂ => rfl, fun a => ?_, ?_, rfl⟩
  · simp [requestDescription, String.append_assoc]
  · simp [requestDescription]

/-- Behavior of the retry combinator: some attempt `k + i` within the allowed
budget produced the final result, every earlier attempt failed with a retryable
error, and if the budget was not exhausted the final attempt did not fail with a
retryable error. -/
theorem retry_spec {α : Type} (cb : Nat → Except MMError α) (p : MMError → Bool) :
    ∀ remaining k, ∃ i, i ≤ remaining ∧ retry cb p k remaining = cb (k + i) ∧
      (∀ j, j < i → ∃ e, cb (k + j) = .error e ∧ p e = true) ∧
      (i < remaining → ∀ e, cb (k + i) = .error e → p e = false) := by
  intro remaining
  induction remaining with
  | zero =>
    intro k
    refine ⟨0, le_rfl, by simp [retry], ?_, ?_⟩
    · intro j hj; exact absurd hj (by omega)
    · intro h; exact absurd h (by omega)
  | succ remaining ih =>
    intro k
    cases h : cb k with
    | ok a =>
      refine ⟨0, by omega, ?_, ?_, ?_⟩
      · simp [retry, h]
      · intro j hj; exact absurd hj (by omega)
      · intro _ e he
        rw [Nat.add_zero, h] at he
        exact Except.noConfusion he
    | error e =>
      by_cases hp : p e = true
      · obtain ⟨i, hle, heq, hprev, hlast⟩ := ih (k + 1)
        refine ⟨i + 1, by omega, ?_, ?_, ?_⟩
        · rw [show k + (i + 1) = (k + 1) + i by omega, ← heq]
          simp [retry, h, hp]
        · intro j hj
          cases j with
          | zero => exact ⟨e, by simpa using h, hp⟩
          | succ j' =>
            obtain ⟨e', he', hpe'⟩ := hprev j' (by omega)
            exact ⟨e', by rw [show k + (j' + 1) = (k + 1) + j' by omega]; exact he', hpe'⟩
        · intro hlt e' he'
          refine hlast (by omega) e' ?_
          rw [show (k + 1) + i = k + (i + 1) by omega]
          exact he'
      · refine ⟨0, by omega, ?_, ?_, ?_⟩
        · simp [retry, h, hp]
        · intro j hj; exact absurd hj (by omega)
        · intro _ e' he'
          rw [Nat.add_zero, h] at he'
          injection he' with he''
          subst he''
          simpa using hp

/-- C2: `joinOrCreate` runs its attempt — `findOneRoomAvailable`; on a null
result `createRoom`; then `reserveSeatFor` — under a retry loop of at most 5
attempts; the final result is the result of some attempt `k < 5`, every attempt
before `k` failed with a `SeatReservationError`, and the loop stopped early
(`k < 4`) only when attempt `k` did not fail with a `SeatReservationError`
(i.e. any other error propagates immediately). -/
theorem joinOrCreate_retries_on_seat_reservation (env : JoinOrCreateEnv) :
    (∀ k room, env.findOneRoomAvailable k = .ok (some room) →
      joinOrCreateAttempt env k = env.reserveSeatFor k room) ∧
    (∀ k room, env.findOneRoomAvailable k = .ok none → env.createRoom k = .ok room →
      joinOrCreateAttempt env k = env.reserveSeatFor k room) ∧
    ∃ k, k < 5 ∧ joinOrCreate env = joinOrCreateAttempt env k ∧
      (∀ j, j < k →
        ∃ msg, joinOrCreateAttempt env j = .error (.seatReservationError msg)) ∧
      (k < 4 → ∀ e, joinOrCreateAttempt env k = .error e →
        isSeatReservationError e = false) := by
  refine ⟨?_, ?_, ?_⟩
  · intro k room h
    simp [joinOrCreateAttempt, h]
  · intro k room hfind hcreate
    simp [joinOrCreateAttempt, hfind, hcreate]
  · obtain ⟨i, hle, heq, hprev, hlast⟩ :=
      retry_spec (joinOrCreateAttempt env) isSeatReservationError 4 0
    refine ⟨i, by omega, by simpa using heq, ?_, ?_⟩
    · intro j hj
      obtain ⟨e, he, hpe⟩ := hprev j hj
      cases e with
      | matchMakeError msg code => simp [isSeatReservationError] at hpe
      | seatReservationError msg => exact ⟨msg, by simpa using he⟩
    · intro hlt e he
      exact hlast (by omega) e (by simpa using he)

/-- Concrete environment exercising `joinOrCreate`: the first attempt finds no
room and creates one, reservations fail with `SeatReservationError` on the first
two attempts and succeed on the third. -/
def joinOrCreateWitnessEnv : JoinOrCreateEnv where
  findOneRoomAvailable := fun k =>
    .ok (if k = 0 then none else some [("roomId", .str "r1")])
  createRoom := fun _ => .ok [("roomId", .str "r1")]
  reserveSeatFor := fun k room =>
    if k < 2 then .error (.seatReservationError (room.roomId ++ " is already full."))
    else .ok { room := room, sessionId := "s1" }

/-- Witness for C2 at a concrete environment. -/
theorem joinOrCreate_retries_on_seat_reservation_witness :
    joinOrCreateAttempt joinOrCreateWitnessEnv 0 =
      joinOrCreateWitnessEnv.reserveSeatFor 0 [("roomId", JSVal.str "r1")] ∧
    joinOrCreateAttempt joinOrCreateWitnessEnv 1 =
      joinOrCreateWitnessEnv.reserveSeatFor 1 [("roomId", JSVal.str "r1")] :=
  ⟨(joinOrCreate_retries_on_seat_reservation joinOrCreateWitnessEnv).2.1 0
      [("roomId", JSVal.str "r1")] rfl rfl,
   (joinOrCreate_retries_on_seat_reservation joinOrCreateWitnessEnv).1 1
      [("roomId", JSVal.str "r1")] rfl⟩

/-- C4: `joinById` fails with `ERR_MATCHMAKE_INVALID_ROOM_ID` when the driver
finds no room; with a (truthy) `options.sessionId` it consults
`hasReservedSeat` and either returns the same session id without reserving a new
seat or fails with `ERR_MATCHMAKE_EXPIRED`; without a session id a locked room
fails with `ERR_MATCHMAKE_INVALID_ROOM_ID` and only an unlocked room goes to
`reserveSeatFor`. -/
theorem joinById_spec (roomId : String) (options : ClientOptions) (env : JoinByIdEnv) :
    (env.findOne roomId = none →
      joinById roomId options env =
        (.error (.matchMakeError ("room \"" ++ roomId ++ "\" not found")
          (some .ERR_MATCHMAKE_INVALID_ROOM_ID)), false)) ∧
    (∀ room s, env.findOne roomId = some room → rejoinSessionIdOf options = some s →
      (env.hasReservedSeat s = .ok true →
        joinById roomId options env = (.ok { room := room, sessionId := s }, false)) ∧
      (env.hasReservedSeat s = .ok false →
        joinById roomId options env =
          (.error (.matchMakeError "session expired" (some .ERR_MATCHMAKE_EXPIRED)),
            false))) ∧
    (∀ room, env.findOne roomId = some room → rejoinSessionIdOf options = none →
      room.locked = true →
      joinById roomId options env =
        (.error (.matchMakeError ("room \"" ++ roomId ++ "\" is locked")
          (some .ERR_MATCHMAKE_INVALID_ROOM_ID)), false)) ∧
    (∀ room, env.findOne roomId = some room → rejoinSessionIdOf options = none →
      room.locked = false →
      joinById roomId options env =
        (reserveSeatFor room env.freshSessionId (env.reserveSeatOutcome room), true)) := by
  refine ⟨?_, ?_, ?_, ?_⟩
  · intro h; simp [joinById, h]
  · intro room s hfind hsid
    exact ⟨fun hseat => by simp [joinById, hfind, hsid, hseat],
           fun hseat => by simp [joinById, hfind, hsid, hseat]⟩
  · intro room hfind hsid hlocked
    simp [joinById, hfind, hsid, hlocked]
  · intro room hfind hsid hlocked
    simp [joinById, hfind, hsid, hlocked]

/-- Unlocked room used by the C4 witness. -/
def joinByIdWitnessRoom : RoomListingData :=
  [("roomId", .str "r9"), ("locked", .bool false)]

/-- Concrete environment for the C4 witness: `r9` exists and is unlocked,
`sess1` has a reserved seat. -/
def joinByIdWitnessEnv : JoinByIdEnv where
  findOne := fun roomId => if roomId = "r9" then some joinByIdWitnessRoom else none
  hasReservedSeat := fun s => .ok (s = "sess1")
  reserveSeatOutcome := fun _ => .ok true
  freshSessionId := "fresh1"

/-- Witness for C4 at concrete inputs: missing room, reconnection with a valid
and with an expired session, and the plain unlocked-room path. -/
theorem joinById_spec_witness :
    joinById "nope" [] joinByIdWitnessEnv =
      (.error (.matchMakeError "room \"nope\" not found"
        (some .ERR_MATCHMAKE_INVALID_ROOM_ID)), false) ∧
    joinById "r9" [("sessionId", JSVal.str "sess1")] joinByIdWitnessEnv =
      (.ok { room := joinByIdWitnessRoom, sessionId := "sess1" }, false) ∧
    joinById "r9" [("sessionId", JSVal.str "other")] joinByIdWitnessEnv =
      (.error (.matchMakeError "session expired" (some .ERR_MATCHMAKE_EXPIRED)),
        false) ∧
    joinById "r9" [] joinByIdWitnessEnv =
      (reserveSeatFor joinByIdWitnessRoom "fresh1" (.ok true), true) :=
  ⟨(joinById_spec "nope" [] joinByIdWitnessEnv).1 rfl,
   ((joinById_spec "r9" [("sessionId", JSVal.str "sess1")] joinByIdWitnessEnv).2.1
      joinByIdWitnessRoom "sess1" rfl rfl).1 rfl,
   ((joinById_spec "r9" [("sessionId", JSVal.str "other")] joinByIdWitnessEnv).2.1
      joinByIdWitnessRoom "other" rfl rfl).2 rfl,
   (joinById_spec "r9" [] joinByIdWitnessEnv).2.2.2
      joinByIdWitnessRoom rfl rfl rfl⟩

/-- C5: through the concurrency gate, the delay before the callback equals
`min(concurrency * 100, REMOTE_ROOM_SHORT_TIMEOUT)` where the observed
concurrency is the incremented counter minus one, a single joiner (counter 0)
waits 0 ms, the counter is decremented back after the callback whether it
succeeded or threw, and a sequence of joiners starting from counter 0 ends with
the counter back at 0. -/
theorem awaitRoomAvailable_gate_spec {α : Type} (remoteRoomShortTimeout : Nat)
    (callback : Except MMError α) (counter : Nat) :
    (awaitRoomAvailable remoteRoomShortTimeout callback counter).2.1 =
      min ((counter + 1 - 1) * 100) remoteRoomShortTimeout ∧
    (awaitRoomAvailable remoteRoomShortTimeout callback counter).1 = callback ∧
    (awaitRoomAvailable remoteRoomShortTimeout callback counter).2.2 = counter ∧
    (awaitRoomAvailable remoteRoomShortTimeout callback 0).2.1 = 0 ∧
    ∀ callbacks : List (Except MMError α),
      runJoiners remoteRoomShortTimeout callbacks 0 = 0 := by
  have hbody : ∀ (c : Nat), (runGateBody callback c).2 = c - 1 := by
    intro c; cases callback <;> rfl
  have hfst : ∀ (c : Nat), (runGateBody callback c).1 = callback := by
    intro c; cases callback <;> rfl
  refine ⟨rfl, hfst _, ?_, ?_, ?_⟩
  · simp [awaitRoomAvailable, hbody]
  · simp [awaitRoomAvailable]
  · intro callbacks
    have : ∀ (cbs : List (Except MMError α)) (c : Nat),
        runJoiners remoteRoomShortTimeout cbs c = c := by
      intro cbs
      induction cbs with
      | nil => intro c; rfl
      | cons cb rest ihr =>
        intro c
        have hb : ∀ (d : Nat), (runGateBody cb d).2 = d - 1 := by
          intro d; cases cb <;> rfl
        simp [runJoiners, List.foldl_cons, awaitRoomAvailable, hb] at ihr ⊢
        exact ihr c
    exact this callbacks 0

/-- The comparator accepts an adjacent pair exactly when the first count is
not greater than the second. -/
theorem createRoomComparator_le_zero (counts : List (String × Int))
    (p1 p2 : String) :
    createRoomComparator counts p1 p2 ≤ 0 ↔
      countOf counts p1 ≤ countOf counts p2 := by
  unfold createRoomComparator
  split_ifs with h <;> omega

/-- The head of a comparator-accepted list has minimal count among the list. -/
theorem comparatorAccepts_head_le (counts : List (String × Int)) :
    ∀ (t : List String) (h : String),
      comparatorAccepts counts (h :: t) = true →
      ∀ p ∈ t, countOf counts h ≤ countOf counts p := by
  intro t
  induction t with
  | nil =>
    intro h _ p hp
    exact absurd hp (by simp)
  | cons q t ih =>
    intro h hacc p hp
    have hsplit : (decide (createRoomComparator counts h q ≤ 0) &&
        comparatorAccepts counts (q :: t)) = true := hacc
    have hand : decide (createRoomComparator counts h q ≤ 0) = true ∧
        comparatorAccepts counts (q :: t) = true := by
      simpa [Bool.and_eq_true] using hsplit
    have hhq : countOf counts h ≤ countOf counts q :=
      (createRoomComparator_le_zero counts h q).mp (of_decide_eq_true hand.1)
    rcases List.mem_cons.mp hp with hp1 | hp1
    · subst hp1; exact hhq
    · exact le_trans hhq (ih q hand.2 p hp1)

/-- C3 (amended): for every key order the engine may produce under the
`createRoom` comparator contract (the comparator never returns 0, so the order
of tied keys is implementation-defined), the picked target attains the strictly
smallest count in the room-count hash; if the hash is empty the target is the
calling process; if the target is the calling process `createRoom` calls
`handleCreateRoom` locally, and otherwise it publishes the create request on
the target process channel, falling back to local creation on any failure of
that request.  Which of several tied minimal keys is picked is not determined
by the program. -/
theorem createRoom_least_loaded_placement (counts : List (String × Int))
    (processId : String) (sorted : List String) (env : CreateRoomEnv)
    (hsort : IsComparatorSortResult counts sorted) :
    (counts = [] → processIdWithFewerRooms counts processId sorted = processId) ∧
    (counts ≠ [] →
      processIdWithFewerRooms counts processId sorted ∈ counts.map Prod.fst ∧
      ∀ p ∈ counts.map Prod.fst,
        countOf counts (processIdWithFewerRooms counts processId sorted) ≤
          countOf counts p) ∧
    (processIdWithFewerRooms counts processId sorted = processId →
      createRoom counts processId sorted env =
        { result := env.handleCreateRoom, ipcRequestChannel := none,
          createdLocally := true }) ∧
    (∀ target, processIdWithFewerRooms counts processId sorted = target →
      target ≠ processId →
      (∀ room, env.ipcCreate target = .ok room →
        createRoom counts processId sorted env =
          { result := .ok room,
            ipcRequestChannel := some (getProcessChannel target),
            createdLocally := false }) ∧
      (∀ e, env.ipcCreate target = .error e →
        createRoom counts processId sorted env =
          { result := env.handleCreateRoom,
            ipcRequestChannel := some (getProcessChannel target),
            createdLocally := true })) := by
  obtain ⟨hpermb, hacc⟩ := hsort
  have hperm : sorted.Perm (counts.map Prod.fst) := List.isPerm_iff.mp hpermb
  refine ⟨?_, ?_, ?_, ?_⟩
  · intro h
    subst h
    have hnil : sorted = [] := by simpa using hperm
    subst hnil
    rfl
  · intro hne
    cases hs : sorted with
    | nil =>
      exfalso
      rw [hs] at hperm
      have hmapnil : counts.map Prod.fst = [] := (List.Perm.symm hperm).eq_nil
      exact hne (by simpa using hmapnil)
    | cons h0 t =>
      rw [show processIdWithFewerRooms counts processId (h0 :: t) = h0 from rfl]
      constructor
      · exact hperm.mem_iff.mp (by rw [hs]; exact List.mem_cons_self _ _)
      · intro p hp
        have hpsorted : p ∈ sorted := hperm.mem_iff.mpr hp
        rw [hs] at hpsorted
        rcases List.mem_cons.mp hpsorted with hp1 | hp1
        · subst hp1; exact le_rfl
        · exact comparatorAccepts_head_le counts t h0
            (by rw [hs] at hacc; exact hacc) p hp1
  · intro h
    simp [createRoom, h]
  · intro target htarget hne
    constructor
    · intro room hok
      simp [createRoom, htarget, hne, hok]
    · intro e herr
      simp [createRoom, htarget, hne, herr]

/-- C3 counterexample: the comparator never returns 0, so on tied counts it
reports both orders as smaller and ECMAScript leaves the resulting order
implementation-defined.  With counts `a=2, b=1, c=1`, both `["b","c","a"]`
(the stable-first order the claim assumes) and `["c","b","a"]` (what the V8
TimSort of Node 11 and later produces, detecting the tied prefix as a
descending run and reversing it) satisfy the comparator contract; the latter
picks target `c` whereas the stable tiebreak asserted by the claim — the
spec-side `stableMinProcessId` — requires `b`.  So the stable tiebreak is not
a property of the program. -/
theorem createRoom_tiebreak_counterexample :
    IsComparatorSortResult [("a", 2), ("b", 1), ("c", 1)] ["b", "c", "a"] ∧
    IsComparatorSortResult [("a", 2), ("b", 1), ("c", 1)] ["c", "b", "a"] ∧
    stableMinProcessId [("a", 2), ("b", 1), ("c", 1)] = some "b" ∧
    processIdWithFewerRooms [("a", 2), ("b", 1), ("c", 1)] "a" ["b", "c", "a"]
      = "b" ∧
    processIdWithFewerRooms [("a", 2), ("b", 1), ("c", 1)] "a" ["c", "b", "a"]
      = "c" ∧
    ("c" : String) ≠ "b" := by
  decide

/-- Concrete environment for the C3 witness. -/
def createRoomWitnessEnv : CreateRoomEnv where
  ipcCreate := fun target =>
    if target = "c" then .ok [("roomId", .str "rc")]
    else .error (.matchMakeError "ipc failed" none)
  handleCreateRoom := .ok [("roomId", .str "rlocal")]

/-- Witness for C3 (amended) at concrete inputs: with counts `a=2, b=1, c=1`
and the key order V8 produces, the target `c` attains the minimal count and
creation goes over IPC to the channel of `c`; with a singleton hash the
creation is local; with an empty hash the target is the calling process. -/
theorem createRoom_least_loaded_placement_witness :
    processIdWithFewerRooms [] "a" [] = "a" ∧
    countOf [("a", 2), ("b", 1), ("c", 1)]
        (processIdWithFewerRooms [("a", 2), ("b", 1), ("c", 1)] "a"
          ["c", "b", "a"]) ≤
      countOf [("a", 2), ("b", 1), ("c", 1)] "a" ∧
    createRoom [("a", 2), ("b", 1), ("c", 1)] "a" ["c", "b", "a"]
        createRoomWitnessEnv =
      { result := .ok [("roomId", JSVal.str "rc")],
        ipcRequestChannel := some (getProcessChannel "c"),
        createdLocally := false } ∧
    createRoom [("a", 0)] "a" ["a"] createRoomWitnessEnv =
      { result := createRoomWitnessEnv.handleCreateRoom,
        ipcRequestChannel := none, createdLocally := true } :=
  ⟨(createRoom_least_loaded_placement [] "a" [] createRoomWitnessEnv
      (by decide)).1 rfl,
   ((createRoom_least_loaded_placement [("a", 2), ("b", 1), ("c", 1)] "a"
        ["c", "b", "a"] createRoomWitnessEnv (by decide)).2.1 (by decide)).2
      "a" (by decide),
   ((createRoom_least_loaded_placement [("a", 2), ("b", 1), ("c", 1)] "a"
        ["c", "b", "a"] createRoomWitnessEnv (by decide)).2.2.2 "c" rfl
      (by decide)).1 [("roomId", JSVal.str "rc")] rfl,
   (createRoom_least_loaded_placement [("a", 0)] "a" ["a"] createRoomWitnessEnv
      (by decide)).2.2.1 rfl⟩

/-- C8 counterexample: the handler filter options are spread after the base
conditions `{locked: false, name, private: false}` and therefore override them.
With a handler registered with `filterBy` containing `locked` and client
options carrying `locked: true`, `findOneRoomAvailable` queries with
`locked: true` and returns a locked listing — refuting the claim that any
listing it returns has `locked = false`. -/
theorem findOneRoomAvailable_locked_override_counterexample :
    findOneRoomAvailable [("chat", { filterBy := ["locked"] })]
        [[("name", .str "chat"), ("roomId", .str "r1"), ("locked", .bool true),
          ("private", .bool false)]]
        "chat" [("locked", .bool true)] =
      .ok (some [("name", .str "chat"), ("roomId", .str "r1"),
        ("locked", .bool true), ("private", .bool false)]) ∧
    RoomListingData.locked
      [("name", JSVal.str "chat"), ("roomId", JSVal.str "r1"),
        ("locked", JSVal.bool true), ("private", JSVal.bool false)] = true := by
  decide

/-- C8 (amended): `findOneRoomAvailable` fails with `ERR_MATCHMAKE_NO_HANDLER`
when no handler is registered for the name, and otherwise queries the driver
with `{locked: false, name, private: false}` merged with the handler filter
options (which override on key collision); provided the filter options bind
neither `locked` nor `private`, any listing it returns has `locked = false` and
`private = false`. -/
theorem findOneRoomAvailable_spec (handlers : List (String × RegisteredHandler))
    (listings : List RoomListingData) (roomName : String)
    (options : ClientOptions) :
    (handlers.lookup roomName = none →
      findOneRoomAvailable handlers listings roomName options =
        .error (.matchMakeError ("\"" ++ roomName ++ "\" not defined")
          (some .ERR_MATCHMAKE_NO_HANDLER))) ∧
    (∀ handler, handlers.lookup roomName = some handler →
      findOneRoomAvailable handlers listings roomName options =
        .ok (driverFindOne listings (findOneConditions roomName handler options))) ∧
    (∀ handler room, handlers.lookup roomName = some handler →
      (handler.getFilterOptions options).lookup "locked" = none →
      (handler.getFilterOptions options).lookup "private" = none →
      findOneRoomAvailable handlers listings roomName options = .ok (some room) →
      room.lookup "locked" = some (.bool false) ∧
      room.lookup "private" = some (.bool false)) := by
  refine ⟨?_, ?_, ?_⟩
  · intro h; simp [findOneRoomAvailable, h]
  · intro handler h; simp [findOneRoomAvailable, h]
  · intro handler room hh hlocked hprivate hres
    have hfind : driverFindOne listings (findOneConditions roomName handler options) =
        some room := by
      simpa [findOneRoomAvailable, hh] using hres
    simp only [driverFindOne] at hfind
    have hmatch : matchesConditions room (findOneConditions roomName handler options) =
        true :=
      List.find?_some
        (p := fun r => matchesConditions r (findOneConditions roomName handler options))
        hfind
    have hget : ∀ c ∈ findOneConditions roomName handler options,
        room.lookup c.1 = some c.2 := by
      intro c hc
      exact of_decide_eq_true (List.all_eq_true.mp hmatch c hc)
    constructor
    · exact hget ("locked", .bool false)
        (List.mem_append_left _ (List.mem_filter.mpr ⟨by simp, by simp [hlocked]⟩))
    · exact hget ("private", .bool false)
        (List.mem_append_left _ (List.mem_filter.mpr ⟨by simp, by simp [hprivate]⟩))

/-- A public, unlocked listing for the C8 witness. -/
def findOneWitnessListing : RoomListingData :=
  [("name", .str "chat"), ("locked", .bool false), ("private", .bool false),
   ("mode", .str "duo"), ("roomId", .str "r2")]

/-- Witness for C8 (amended) at concrete inputs: a missing handler fails with
`ERR_MATCHMAKE_NO_HANDLER`, and a handler filtering on `mode` (not on `locked`
or `private`) returns a listing with `locked = false` and `private = false`. -/
theorem findOneRoomAvailable_spec_witness :
    findOneRoomAvailable [] [findOneWitnessListing] "chat" [] =
      .error (.matchMakeError "\"chat\" not defined"
        (some .ERR_MATCHMAKE_NO_HANDLER)) ∧
    (findOneWitnessListing.lookup "locked" = some (.bool false) ∧
      findOneWitnessListing.lookup "private" = some (.bool false)) :=
  ⟨(findOneRoomAvailable_spec [] [findOneWitnessListing] "chat" []).1 rfl,
   (findOneRoomAvailable_spec [("chat", { filterBy := ["mode"] })]
        [findOneWitnessListing] "chat" [("mode", JSVal.str "duo")]).2.2
      { filterBy := ["mode"] } findOneWitnessListing rfl rfl rfl (by decide)⟩

/-- A successful `handleCreateRoom` returns the new room reference, places it
in the local table and subscribes on its per-room channel. -/
theorem handleCreateRoom_ok_parts (s : MMState) (processId : String)
    (a : CreateAttempt) (room : RoomRef) (s2 : MMState)
    (h : handleCreateRoom s processId a = (.ok room, s2)) :
    room = { roomId := a.roomId, roomName := a.roomName } ∧
    s2.rooms =
      ({ roomId := a.roomId, roomName := a.roomName } : RoomRef) ::
        s.rooms.filter (fun r => r.roomId != a.roomId) ∧
    s2.subscriptions = getRoomChannel a.roomId :: s.subscriptions := by
  by_cases hc : s.handlers.contains a.roomName
  · cases hoc : a.hasOnCreate <;> cases herr : a.onCreateError <;>
      simp_all [handleCreateRoom, createRoomReferences, MMState.subscribeIPC,
        MMState.hincrbyRoomCount] <;>
      (obtain ⟨h1, h2⟩ := h; subst h2; subst h1; exact ⟨rfl, rfl⟩)
  · simp_all [handleCreateRoom]

/-- `disposeRoom` removes the room from the table and drops the per-room
subscription, leaving the other rooms and subscriptions in place. -/
theorem disposeRoom_parts (s : MMState) (processId : String) (room : RoomRef) :
    (disposeRoom s processId room).rooms =
      s.rooms.filter (fun r => r.roomId != room.roomId) ∧
    (disposeRoom s processId room).subscriptions =
      s.subscriptions.filter (fun c => c != getRoomChannel room.roomId) := by
  cases hflag : s.isGracefullyShuttingDown <;>
    simp [disposeRoom, hflag, clearRoomReferences, MMState.presenceDel,
      MMState.unsubscribe, MMState.hincrbyRoomCount]

/-- The synchronous part of a first `gracefullyShutdown` call: the shutdown
flag set, the table unchanged, the process channel subscription filtered out. -/
theorem gracefullyShutdown_state_parts (s : MMState) (processId : String)
    (disconnectOutcome : String → Except String Unit)
    (h : s.isGracefullyShuttingDown = false) :
    (gracefullyShutdown s processId disconnectOutcome).state.rooms = s.rooms ∧
    (gracefullyShutdown s processId disconnectOutcome).state.subscriptions =
      s.subscriptions.filter (fun c => c != getProcessChannel processId) ∧
    (gracefullyShutdown s processId disconnectOutcome).state.isGracefullyShuttingDown
      = true ∧
    (gracefullyShutdown s processId disconnectOutcome).state.roomCount =
      s.roomCount.filter (fun p => p.1 != processId) := by
  simp [gracefullyShutdown, h, MMState.hdelRoomCount, MMState.unsubscribe]

/-- C1 (amended): in every reachable state, every room present in the local
table — locked or not — has a live subscription on its per-room channel; the
`lock` event handler leaves both the table and the subscriptions untouched,
because `clearRoomReferences` only deletes the plain presence key of the room
id (the connecting-clients list), not the channel subscription. -/
theorem lockRoom_subscription_invariant (processId : String)
    (handlerNames : List String) (s : MMState)
    (hreach : Reachable processId handlerNames s) :
    (∀ room ∈ s.rooms, getRoomChannel room.roomId ∈ s.subscriptions) ∧
    (∀ room : RoomRef, (lockRoom s room).rooms = s.rooms ∧
      (lockRoom s room).subscriptions = s.subscriptions ∧
      lockRoom s room = s.presenceDel room.roomId) := by
  refine ⟨?_, fun room => ⟨rfl, rfl, rfl⟩⟩
  induction hreach with
  | refl =>
    intro room hr
    exact absurd hr (by simp [setup])
  | @tail b c hprev hstep ih =>
    cases hstep with
    | create a room s2 fresh ok =>
      obtain ⟨hroomval, hrooms, hsubs⟩ := handleCreateRoom_ok_parts _ _ _ _ _ ok
      intro r hrmem
      rw [hrooms] at hrmem
      rw [hsubs]
      rcases List.mem_cons.mp hrmem with h1 | h1
      · subst h1
        exact List.mem_cons_self _ _
      · exact List.mem_cons_of_mem _ (ih r (List.mem_of_mem_filter h1))
    | lock room mem =>
      intro r hr
      exact ih r hr
    | unlock room mem =>
      intro r hr
      replace hr : r ∈ room :: b.rooms.filter (fun x => x.roomId != room.roomId) := hr
      rcases List.mem_cons.mp hr with h1 | h1
      · subst h1
        exact ih r mem
      · exact ih r (List.mem_of_mem_filter h1)
    | dispose room mem =>
      obtain ⟨hrooms, hsubs⟩ := disposeRoom_parts b processId room
      intro r hr
      rw [hrooms] at hr
      rw [hsubs]
      have hne : (r.roomId != room.roomId) = true := (List.mem_filter.mp hr).2
      refine List.mem_filter.mpr ⟨ih r (List.mem_of_mem_filter hr), ?_⟩
      simp only [bne_iff_ne] at hne ⊢
      simp [getRoomChannel, hne]
    | shutdown f =>
      intro r hr
      cases hflag : b.isGracefullyShuttingDown with
      | true =>
        have hstate : (gracefullyShutdown b processId f).state = b := by
          simp [gracefullyShutdown, hflag]
        rw [hstate] at hr ⊢
        exact ih r hr
      | false =>
        obtain ⟨hrooms, hsubs, _, _⟩ :=
          gracefullyShutdown_state_parts b processId f hflag
        rw [hrooms] at hr
        rw [hsubs]
        exact List.mem_filter.mpr
          ⟨ih r hr, by simp [getRoomChannel, getProcessChannel]⟩

/-- The create attempt used by the C1 concrete run. -/
def lockWitnessAttempt : CreateAttempt :=
  { roomName := "chat", roomId := "r1", hasOnCreate := false, onCreateError := none }

/-- Fresh-process state of the C1 concrete run. -/
def lockWitnessS0 : MMState := setup "p1" ["chat"]

/-- The room created in the C1 concrete run. -/
def lockWitnessRoom : RoomRef := { roomId := "r1", roomName := "chat" }

/-- State after creating the room in the C1 concrete run. -/
def lockWitnessS1 : MMState := (handleCreateRoom lockWitnessS0 "p1" lockWitnessAttempt).2

/-- State after the room emitted `lock` in the C1 concrete run. -/
def lockWitnessS2 : MMState := lockRoom lockWitnessS1 lockWitnessRoom

/-- The C1 concrete run state is reachable: create a room, then lock it. -/
theorem lockWitness_reachable : Reachable "p1" ["chat"] lockWitnessS2 := by
  have h1 : Step "p1" lockWitnessS0 lockWitnessS1 :=
    Step.create lockWitnessS0 lockWitnessAttempt lockWitnessRoom lockWitnessS1
      (by intro r hr; exact absurd hr (by simp [lockWitnessS0, setup]))
      (by decide)
  have h2 : Step "p1" lockWitnessS1 lockWitnessS2 :=
    Step.lock lockWitnessS1 lockWitnessRoom (by decide)
  exact Relation.ReflTransGen.tail
    (Relation.ReflTransGen.tail Relation.ReflTransGen.refl h1) h2

/-- C1 counterexample: a reachable state in which a room has emitted `lock`
(the state is exactly `lockRoom` applied after the creation) and the locked
room is still in the local table with its per-room subscription live —
`lockRoom` does not unsubscribe from the per-room channel. -/
theorem lockRoom_unsubscribe_counterexample :
    Reachable "p1" ["chat"] lockWitnessS2 ∧
    lockWitnessS2 = lockRoom lockWitnessS1 lockWitnessRoom ∧
    lockWitnessRoom ∈ lockWitnessS2.rooms ∧
    getRoomChannel "r1" ∈ lockWitnessS2.subscriptions ∧
    lockWitnessS2.subscriptions = lockWitnessS1.subscriptions := by
  refine ⟨?_, rfl, by decide, by decide, rfl⟩
  have h1 : Step "p1" lockWitnessS0 lockWitnessS1 :=
    Step.create lockWitnessS0 lockWitnessAttempt lockWitnessRoom lockWitnessS1
      (by intro r hr; exact absurd hr (by simp [lockWitnessS0, setup]))
      (by decide)
  have h2 : Step "p1" lockWitnessS1 lockWitnessS2 :=
    Step.lock lockWitnessS1 lockWitnessRoom (by decide)
  exact Relation.ReflTransGen.tail
    (Relation.ReflTransGen.tail Relation.ReflTransGen.refl h1) h2

/-- Witness for the amended C1 theorem, applied at the reachable state of the
concrete run with a locked room. -/
theorem lockRoom_subscription_invariant_witness :
    (∀ room ∈ lockWitnessS2.rooms,
      getRoomChannel room.roomId ∈ lockWitnessS2.subscriptions) ∧
    (lockRoom lockWitnessS2 lockWitnessRoom).rooms = lockWitnessS2.rooms ∧
    (lockRoom lockWitnessS2 lockWitnessRoom).subscriptions =
      lockWitnessS2.subscriptions :=
  ⟨(lockRoom_subscription_invariant "p1" ["chat"] lockWitnessS2
      lockWitness_reachable).1,
   ((lockRoom_subscription_invariant "p1" ["chat"] lockWitnessS2
      lockWitness_reachable).2 lockWitnessRoom).1,
   ((lockRoom_subscription_invariant "p1" ["chat"] lockWitnessS2
      lockWitness_reachable).2 lockWitnessRoom).2.1⟩

/-- Looking up a key in a list filtered to exclude that key yields nothing. -/
theorem lookup_filter_ne (l : List (String × Int)) (k : String) :
    (l.filter (fun p => p.1 != k)).lookup k = none := by
  induction l with
  | nil => rfl
  | cons p l ih =>
    by_cases h : p.1 = k
    · simp [List.filter_cons, h, ih]
    · have h2 : (k == p.1) = false := by
        simp only [beq_eq_false_iff_ne, ne_eq]
        exact fun hh => h hh.symm
      simp [List.filter_cons, h, h2, List.lookup, ih]

/-- `Promise.all` succeeds when every future succeeds. -/
theorem promiseAll_ok {ε α : Type} :
    ∀ rs : List (Except ε α), (∀ r ∈ rs, ∃ a, r = .ok a) →
      ∃ l, promiseAll rs = .ok l := by
  intro rs
  induction rs with
  | nil => intro _; exact ⟨[], rfl⟩
  | cons r rs ih =>
    intro h
    obtain ⟨a, ha⟩ := h r (List.mem_cons_self _ _)
    obtain ⟨l, hl⟩ := ih (fun x hx => h x (List.mem_cons_of_mem _ hx))
    subst ha
    exact ⟨a :: l, by simp [promiseAll, hl]⟩

/-- C7 (amended): a second `gracefullyShutdown` call fails by rejecting with
the literal value `false` (not an Error carrying a message); the first call
sets the shutdown flag, deletes this process room-count entry, unsubscribes
from the process channel, invokes `disconnect()` on every local room, and
returns `Promise.all` over the disconnect futures — succeeding when every
disconnect succeeds and otherwise rejecting with the first failure rather than
waiting for all to settle. -/
theorem gracefullyShutdown_spec (s : MMState) (processId : String)
    (disconnectOutcome : String → Except String Unit) :
    (s.isGracefullyShuttingDown = true →
      gracefullyShutdown s processId disconnectOutcome =
        { state := s, disconnectedRooms := [],
          outcome := .error .rejectedWithFalse }) ∧
    (s.isGracefullyShuttingDown = false →
      (gracefullyShutdown s processId disconnectOutcome).state.isGracefullyShuttingDown
        = true ∧
      ((gracefullyShutdown s processId disconnectOutcome).state.roomCount.lookup
        processId) = none ∧
      getProcessChannel processId ∉
        (gracefullyShutdown s processId disconnectOutcome).state.subscriptions ∧
      (gracefullyShutdown s processId disconnectOutcome).disconnectedRooms =
        s.rooms.map (fun room => room.roomId) ∧
      (gracefullyShutdown s processId disconnectOutcome).outcome =
        (match promiseAll (s.rooms.map (fun room => disconnectOutcome room.roomId)) with
         | .ok _ => .ok ()
         | .error e => .error (.disconnectFailure e)) ∧
      ((∀ room ∈ s.rooms, disconnectOutcome room.roomId = .ok ()) →
        (gracefullyShutdown s processId disconnectOutcome).outcome = .ok ())) := by
  constructor
  · intro h
    simp [gracefullyShutdown, h]
  · intro h
    obtain ⟨hrooms, hsubs, hflag, hcount⟩ :=
      gracefullyShutdown_state_parts s processId disconnectOutcome h
    refine ⟨hflag, ?_, ?_, ?_, ?_, ?_⟩
    · rw [hcount]
      exact lookup_filter_ne s.roomCount processId
    · rw [hsubs]
      intro hmem
      have := (List.mem_filter.mp hmem).2
      simp at this
    · simp [gracefullyShutdown, h, MMState.hdelRoomCount, MMState.unsubscribe]
    · simp [gracefullyShutdown, h, MMState.hdelRoomCount, MMState.unsubscribe]
    · intro hok
      obtain ⟨l, hl⟩ := promiseAll_ok
        (s.rooms.map (fun room => disconnectOutcome room.roomId))
        (by
          intro r hr
          obtain ⟨room, hroom, hval⟩ := List.mem_map.mp hr
          exact ⟨(), by rw [← hval, hok room hroom]⟩)
      simp [gracefullyShutdown, h, MMState.hdelRoomCount, MMState.unsubscribe, hl]

/-- State used by the C7 witness: one live room, not yet shutting down. -/
def shutdownWitnessState : MMState :=
  { handlers := ["chat"], rooms := [{ roomId := "r1", roomName := "chat" }],
    subscriptions := [getProcessChannel "p1", getRoomChannel "r1"],
    presenceKeys := [], roomCount := [("p1", 1)], listings := ["r1"],
    isGracefullyShuttingDown := false }

/-- Witness for C7 (amended) at concrete inputs: a first call with all
disconnects succeeding resolves, a repeated call rejects with the literal
`false`. -/
theorem gracefullyShutdown_spec_witness :
    (gracefullyShutdown shutdownWitnessState "p1" (fun _ => .ok ())).outcome =
      .ok () ∧
    gracefullyShutdown
        { shutdownWitnessState with isGracefullyShuttingDown := true } "p1"
        (fun _ => .ok ()) =
      { state := { shutdownWitnessState with isGracefullyShuttingDown := true },
        disconnectedRooms := [], outcome := .error .rejectedWithFalse } :=
  ⟨((gracefullyShutdown_spec shutdownWitnessState "p1" (fun _ => .ok ())).2
      rfl).2.2.2.2.2 (fun _ _ => rfl),
   (gracefullyShutdown_spec
      { shutdownWitnessState with isGracefullyShuttingDown := true } "p1"
      (fun _ => .ok ())).1 rfl⟩

/-- C7 counterexample: with two rooms whose first disconnect fails, the first
`gracefullyShutdown` call rejects with that failure (fail-fast `Promise.all`)
instead of settling all futures and logging; and a repeated call rejects with
the literal value `false` rather than an Error with a shutting-down message. -/
theorem gracefullyShutdown_allSettled_counterexample :
    ShutdownResult.outcome (gracefullyShutdown
        { handlers := ["chat"],
          rooms := [{ roomId := "r1", roomName := "chat" },
                    { roomId := "r2", roomName := "chat" }],
          subscriptions := [getProcessChannel "p1", getRoomChannel "r1",
            getRoomChannel "r2"],
          presenceKeys := [], roomCount := [("p1", 2)], listings := ["r1", "r2"],
          isGracefullyShuttingDown := false } "p1"
        (fun roomId =>
          if roomId = "r1" then Except.error "disconnect failed"
          else Except.ok ())) =
      .error (.disconnectFailure "disconnect failed") ∧
    ShutdownResult.outcome (gracefullyShutdown
        { handlers := ["chat"], rooms := [], subscriptions := [],
          presenceKeys := [], roomCount := [], listings := [],
          isGracefullyShuttingDown := true } "p1"
        (fun _ => Except.ok ())) =
      .error .rejectedWithFalse := by
  decide

/-- The count stored for a process after `hincrby` on that process. -/
theorem roomCountOf_hincrby (s : MMState) (processId : String) (amount : Int) :
    (s.hincrbyRoomCount processId amount).roomCountOf processId =
      s.roomCountOf processId + amount := by
  simp [MMState.hincrbyRoomCount, MMState.roomCountOf, List.lookup]

/-- C9: `handleCreateRoom` increments this process room-count entry only inside
the branch where the room class defines `onCreate` and that call succeeds; a
room class without `onCreate` is created successfully with the room-count hash
unchanged, a throwing `onCreate` fails with the wrapped message and the state
unchanged — while `disposeRoom` still decrements the entry by 1 whenever the
process is not shutting down. -/
theorem handleCreateRoom_roomcount_spec (s : MMState) (processId : String)
    (a : CreateAttempt) :
    (a.hasOnCreate = false → s.handlers.contains a.roomName = true →
      (handleCreateRoom s processId a).1 =
        .ok { roomId := a.roomId, roomName := a.roomName } ∧
      (handleCreateRoom s processId a).2.roomCount = s.roomCount) ∧
    (a.hasOnCreate = true → a.onCreateError = none →
      s.handlers.contains a.roomName = true →
      (handleCreateRoom s processId a).2.roomCountOf processId =
        s.roomCountOf processId + 1) ∧
    (∀ message, a.hasOnCreate = true → a.onCreateError = some message →
      s.handlers.contains a.roomName = true →
      handleCreateRoom s processId a = (.error (.matchMakeError message none), s)) ∧
    (∀ room : RoomRef, s.isGracefullyShuttingDown = false →
      (disposeRoom s processId room).roomCountOf processId =
        s.roomCountOf processId - 1) := by
  refine ⟨?_, ?_, ?_, ?_⟩
  · intro hoc hc
    have hmem : a.roomName ∈ s.handlers := by simpa using hc
    cases herr : a.onCreateError <;>
      simp [handleCreateRoom, hmem, hoc, herr, createRoomReferences,
        MMState.subscribeIPC]
  · intro hoc herr hc
    have hmem : a.roomName ∈ s.handlers := by simpa using hc
    have : (handleCreateRoom s processId a).2.roomCount =
        (s.hincrbyRoomCount processId 1).roomCount := by
      simp [handleCreateRoom, hmem, hoc, herr, createRoomReferences,
        MMState.subscribeIPC]
    rw [show (handleCreateRoom s processId a).2.roomCountOf processId =
        ((handleCreateRoom s processId a).2.roomCount.lookup processId).getD 0
      from rfl, this]
    exact roomCountOf_hincrby s processId 1
  · intro message hoc herr hc
    have hmem : a.roomName ∈ s.handlers := by simpa using hc
    simp [handleCreateRoom, hmem, hoc, herr]
  · intro room hflag
    have : (disposeRoom s processId room).roomCount =
        (s.hincrbyRoomCount processId (-1)).roomCount := by
      simp [disposeRoom, hflag, clearRoomReferences, MMState.presenceDel,
        MMState.unsubscribe]
    rw [show (disposeRoom s processId room).roomCountOf processId =
        ((disposeRoom s processId room).roomCount.lookup processId).getD 0
      from rfl, this]
    rw [show ((s.hincrbyRoomCount processId (-1)).roomCount.lookup processId).getD 0 =
        (s.hincrbyRoomCount processId (-1)).roomCountOf processId from rfl]
    rw [roomCountOf_hincrby s processId (-1)]
    omega

/-- Witness for C9 at concrete inputs: creating a room without `onCreate`
leaves the count unchanged, and disposing decrements it. -/
theorem handleCreateRoom_roomcount_spec_witness :
    (handleCreateRoom (setup "p1" ["chat"]) "p1"
      { roomName := "chat", roomId := "r1", hasOnCreate := false,
        onCreateError := none }).2.roomCount = (setup "p1" ["chat"]).roomCount ∧
    (disposeRoom (setup "p1" ["chat"]) "p1"
        { roomId := "r1", roomName := "chat" }).roomCountOf "p1" =
      (setup "p1" ["chat"]).roomCountOf "p1" - 1 :=
  ⟨((handleCreateRoom_roomcount_spec (setup "p1" ["chat"]) "p1"
      { roomName := "chat", roomId := "r1", hasOnCreate := false,
        onCreateError := none }).1 rfl rfl).2,
   (handleCreateRoom_roomcount_spec (setup "p1" ["chat"]) "p1"
      { roomName := "chat", roomId := "r1", hasOnCreate := false,
        onCreateError := none }).2.2.2
      { roomId := "r1", roomName := "chat" } rfl⟩

end Colyseus
